import Mathlib

/-!
Verification of the training/evaluation orchestration core of
`examples/cnn3d/train_ppi.py` (atom3d).

The shallow embedding below translates the orchestration logic of
`train_model` and its inner `__loop` into Lean:

* Python floats carrying validation losses are modelled as `ℚ`; the
  initial value `float("inf")` is modelled as `none : Option ℚ`.
* `assert False` (a fatal `AssertionError`) is modelled by returning
  `none` from the function that would otherwise produce the value.
* An unbound local variable (Python `NameError`) is modelled by an
  `Option` that is still `none` when read.
* The TensorFlow sess.run of a fetch list is modelled by the list of
  fetched op names; the optimizer semantics of the fetched `train_op`
  are modelled from the spec (see `sessRunParams`).
-/

namespace TrainPPI

/-! ## Dataset-size accounting (train_ppi.py lines 252-277 and 401-416) -/

/-- Number of structures for a split: `max_num_ensembles_*` when set,
otherwise `get_num_keyed()` of the sharded dataset
(train_ppi.py lines 261-269 and 408-411). -/
def numStructuresOf (maxNumEnsembles : Option ℤ) (numKeyed : ℤ) : ℤ :=
  match maxNumEnsembles with
  | none => numKeyed
  | some m => m

/-- Per-epoch example counts for the train and val splits
(train_ppi.py lines 255-274).  The guard mirrors
`max_pos_regions_per_ensemble > 0 and neg_to_pos_ratio > 0`; the `else`
branch is `assert False`, modelled as `none`.  Both CLI fields are
parsed with `type=int`, so they are integers and `int(1 + ratio)` is
exactly `1 + ratio`. -/
def trainValNumStructures (maxPosRegionsPerEnsemble negToPosRatio : ℤ)
    (maxNumEnsemblesTrain maxNumEnsemblesVal : Option ℤ)
    (numKeyedTrain numKeyedVal repeatGen : ℤ) : Option (ℤ × ℤ) :=
  if decide (0 < maxPosRegionsPerEnsemble) && decide (0 < negToPosRatio) then
    let multiplier := maxPosRegionsPerEnsemble * (1 + negToPosRatio)
    some (numStructuresOf maxNumEnsemblesTrain numKeyedTrain * (repeatGen * multiplier),
          numStructuresOf maxNumEnsemblesVal numKeyedVal * (repeatGen * multiplier))
  else
    none

/-- Test example count (train_ppi.py lines 401-415).  The guard mirrors
`(not full_test) and max_pos_regions_per_ensemble_testing > 0 and
neg_to_pos_ratio_testing > 0`; the `else` branch is `assert False`,
modelled as `none`. -/
def testNumStructures (fullTest : Bool)
    (maxPosRegionsPerEnsembleTesting negToPosRatioTesting : ℤ)
    (maxNumEnsemblesTest : Option ℤ) (numKeyedTest : ℤ) : Option ℤ :=
  if !fullTest && decide (0 < maxPosRegionsPerEnsembleTesting)
      && decide (0 < negToPosRatioTesting) then
    let multiplier := maxPosRegionsPerEnsembleTesting * (1 + negToPosRatioTesting)
    some (numStructuresOf maxNumEnsemblesTest numKeyedTest * multiplier)
  else
    none

/-! ## The Evaluator feed dict and fetch list (train_ppi.py lines 202-214) -/

/-- The three dropout rates placed in the feed dict
(train_ppi.py lines 209-214): the configured rate when `mode == 'train'`,
otherwise `0.0`. -/
def feedDropRates (mode : String)
    (convDropRate fcDropRate topNNDropRate : ℚ) : ℚ × ℚ × ℚ :=
  (if mode = "train" then convDropRate else 0,
   if mode = "train" then fcDropRate else 0,
   if mode = "train" then topNNDropRate else 0)

/-- The fetch list passed to `sess.run` inside `__loop`
(train_ppi.py lines 204-205).  The source passes the same literal list
`[train_op, logits_op, predict_op, loss_op, accuracy_op]` whatever the
mode is; the `mode` parameter is taken to record that fact. -/
def sessRunFetches (mode : String) : List String :=
  ["train_op", "logits_op", "predict_op", "loss_op", "accuracy_op"]

/-- Modelled from the spec: the Model collaborator's training op
(`model.training(loss_op, learning_rate)`, train_ppi.py line 176, whose
body is outside this repository snapshot).  Per §4.4/§6 of the spec the
training op is the backward/update computation: running it inside a
`sess.run` applies one optimizer step to the model parameters, here a
single gradient step on a one-dimensional parameter. -/
def sessRunParams (fetches : List String) (params grad : ℚ) : ℚ :=
  if "train_op" ∈ fetches then params - grad else params

/-! ## Checkpoint selection for testing (train_ppi.py lines 379-384) -/

/-- The checkpoint restored for the test phase.  When `test_only` is not
set, `run_info['best_ckpt']` is used if `use_best` else the local
variable `ckpt` (line 380); when `test_only` is set, the `best_ckpt`
entry of the run info loaded from `model_dir` is used (lines 382-384),
with no reference to `use_best`.  Checkpoints are identified by their
epoch number; a `none` result models a `NameError`/`KeyError` on an
unset variable or key. -/
def selectCheckpoint (testOnly useBest : Bool)
    (runInfoBestCkpt ckpt : Option ℕ) (loadedRunInfoBestCkpt : ℕ) : Option ℕ :=
  if !testOnly then
    if useBest then runInfoBestCkpt else ckpt
  else
    some loadedRunInfoBestCkpt

/-! ## The epoch loop (train_ppi.py lines 252-373) -/

/-- Comparison `a < b` where `b` is a Python float that may be
`float("inf")` (`none`).  `a` itself is always finite here. -/
def ltInf (a : ℚ) (b : Option ℚ) : Bool :=
  match b with
  | none => true
  | some x => decide (a < x)

/-- Comparison `a >= b` where `b` is a Python float that may be
`float("inf")` (`none`). -/
def geInf (a : ℚ) (b : Option ℚ) : Bool :=
  match b with
  | none => false
  | some x => decide (x ≤ a)

/-- The configuration flags of `train_model` that drive the per-epoch
checkpoint/stopping logic. -/
structure TrainConfig where
  numEpochs : ℕ
  useBest : Bool
  earlyStopping : Bool
  saveAllCkpts : Bool
deriving DecidableEq

/-- The mutable state threaded through the epoch loop of `train_model`:
`prev_val_loss`/`best_val_loss` (line 253, both starting at
`float("inf")`), the local variable `ckpt` (unassigned at first), the
`run_info` entries written by `__update_and_write_run_info`, and the
loop progress.  Checkpoints are identified by the epoch number passed to
`saver.save(..., global_step=epoch)`. -/
structure TrainState where
  prevValLoss : Option ℚ
  bestValLoss : Option ℚ
  ckpt : Option ℕ
  runInfoBestCkpt : Option ℕ
  runInfoValBestLoss : Option ℚ
  runInfoValLosses : List ℚ
  epochsRun : ℕ
  stopped : Bool
deriving DecidableEq

/-- The state before the first epoch (train_ppi.py lines 253, 286, 292). -/
def initTrainState : TrainState :=
  { prevValLoss := none
    bestValLoss := none
    ckpt := none
    runInfoBestCkpt := none
    runInfoValBestLoss := none
    runInfoValLosses := []
    epochsRun := 0
    stopped := false }

/-- The body of one epoch of the training loop, given the validation
loss `currValLoss` that this epoch's validation pass produced
(train_ppi.py lines 327-373):

* append `curr_val_loss` to `run_info['val_losses']` (lines 327-328);
* if `use_best or early_stopping` and `curr_val_loss < best_val_loss`,
  save a checkpoint and record it as best (lines 330-337);
* if `epoch == num_epochs - 1 and not use_best`, save a checkpoint and
  record it as `best_ckpt` (lines 339-343);
* if `save_all_ckpts`, save a checkpoint (lines 345-348);
* if `early_stopping and curr_val_loss >= prev_val_loss`, break out of
  the loop, else set `prev_val_loss = curr_val_loss` (lines 369-373). -/
def epochStep (cfg : TrainConfig) (st : TrainState) (epoch : ℕ)
    (currValLoss : ℚ) : TrainState :=
  let st := { st with
    runInfoValLosses := st.runInfoValLosses ++ [currValLoss]
    epochsRun := epoch }
  let st :=
    if (cfg.useBest || cfg.earlyStopping) && ltInf currValLoss st.bestValLoss then
      { st with
        bestValLoss := some currValLoss
        ckpt := some epoch
        runInfoValBestLoss := some currValLoss
        runInfoBestCkpt := some epoch }
    else st
  let st :=
    if epoch == cfg.numEpochs - 1 && !cfg.useBest then
      { st with ckpt := some epoch, runInfoBestCkpt := some epoch }
    else st
  let st :=
    if cfg.saveAllCkpts then { st with ckpt := some epoch } else st
  if cfg.earlyStopping && geInf currValLoss st.prevValLoss then
    { st with stopped := true }
  else
    { st with prevValLoss := some currValLoss }

/-- The epoch loop `for epoch in range(1, num_epochs+1)`
(train_ppi.py line 293), driven by the list of per-epoch validation
losses that the validation passes would produce.  The loop stops when
the epochs are exhausted or after an epoch whose step set `stopped`
(the `break` at line 371). -/
def trainEpochs (cfg : TrainConfig) : List ℚ → ℕ → TrainState → TrainState
  | [], _, st => st
  | currValLoss :: rest, epoch, st =>
    if st.stopped then st
    else if cfg.numEpochs < epoch then st
    else trainEpochs cfg rest (epoch + 1) (epochStep cfg st epoch currValLoss)

/-- The whole training phase of `train_model` for a given sequence of
per-epoch validation losses. -/
def trainLoop (cfg : TrainConfig) (valLosses : List ℚ) : TrainState :=
  trainEpochs cfg valLosses 1 initTrainState

/-! ## The Evaluator loop `__loop` (train_ppi.py lines 187-241)

The stream is modelled as the finite list of examples the underlying
generator yields, each example carrying the pair
(per-example loss, per-example accuracy) that the model collaborator
computes for it.  `tf.data`'s `dataset.batch(batch_size)` groups
consecutive examples into batches of `batch_size`, the last batch of a
finite stream being possibly smaller; `sess.run(next_element)` on an
exhausted dataset raises `OutOfRangeError`, which the loop catches and
turns into a `break` (lines 225-227). -/

/-- A per-example model output: (loss value, accuracy value). -/
abbrev Example := ℚ × ℚ

/-- `np.mean` of a list of rationals (the batches fed to it are
nonempty; on `[]` the ℚ-convention `x / 0 = 0` applies). -/
def listMean (xs : List ℚ) : ℚ :=
  xs.sum / (xs.length : ℚ)

/-- `num_batches = int(math.ceil(float(num_iters)/args.batch_size))`
(train_ppi.py line 197), as exact ceiling division. -/
def numBatchesOf (numIters batchSize : ℕ) : ℕ :=
  (numIters + batchSize - 1) / batchSize

/-- The accumulator state of `__loop`: collected per-example records,
the processed batches in order, the running means `epoch_loss` and
`epoch_acc` (lines 191-193), and the batch counter `i`. -/
structure LoopState where
  collected : List Example
  batches : List (List Example)
  epochLoss : ℚ
  epochAcc : ℚ
  i : ℕ
deriving DecidableEq

/-- One iteration of the `for i in range(num_batches)` body
(train_ppi.py lines 201-227) on a nonempty remaining stream: take the
next batch of up to `batchSize` examples, update the running means by
`epoch_loss += (np.mean(loss) - epoch_loss) / (i + 1)` and
`epoch_acc += (np.mean(accuracy) - epoch_acc) / (i + 1)`
(lines 215-216), and extend the collected records (lines 217-221). -/
def loopBatchStep (batchSize : ℕ) (stream : List Example)
    (st : LoopState) : LoopState :=
  let batch := stream.take batchSize
  { collected := st.collected ++ batch
    batches := st.batches ++ [batch]
    epochLoss := st.epochLoss + (listMean (batch.map Prod.fst) - st.epochLoss) / (st.i + 1)
    epochAcc := st.epochAcc + (listMean (batch.map Prod.snd) - st.epochAcc) / (st.i + 1)
    i := st.i + 1 }

/-- The batch loop of `__loop`: at most `fuel` iterations
(`fuel = num_batches`); an exhausted stream raises `OutOfRangeError`,
caught and turned into `break` (train_ppi.py lines 225-227). -/
def evalLoopGo (batchSize : ℕ) : ℕ → List Example → LoopState → LoopState
  | 0, _, st => st
  | _ + 1, [], st => st
  | fuel + 1, e :: rest, st =>
    evalLoopGo batchSize fuel ((e :: rest).drop batchSize)
      (loopBatchStep batchSize (e :: rest) st)

/-- `__loop(generator, mode, num_iters)` in terms of the example stream
the generator yields (train_ppi.py lines 187-241). -/
def evalLoop (stream : List Example) (numIters batchSize : ℕ) : LoopState :=
  evalLoopGo batchSize (numBatchesOf numIters batchSize) stream
    { collected := [], batches := [], epochLoss := 0, epochAcc := 0, i := 0 }

end TrainPPI

namespace TrainPPI

/-! ## Claims -/

/-- C1: in `mode = 'val'` the feed dict does force all three dropout
rates to zero, but the fetch list of `sess.run` still contains
`train_op` — the same fetch list as in `'train'` mode — so running the
loop applies an optimizer update to the model parameters: a parameter
taken at value 1 is moved to 1/2 by a gradient step of 1/2 during a
validation batch, contradicting the claim that no parameter update
occurs outside `'train'` mode. -/
theorem trainOp_fetched_in_val_mode :
    feedDropRates "val" (1/10) (1/4) (1/2) = (0, 0, 0) ∧
    feedDropRates "test" (1/10) (1/4) (1/2) = (0, 0, 0) ∧
    sessRunFetches "val" = sessRunFetches "train" ∧
    "train_op" ∈ sessRunFetches "val" ∧
    sessRunParams (sessRunFetches "val") 1 (1/2) = 1/2 ∧
    sessRunParams (sessRunFetches "val") 1 (1/2) ≠ 1 := by
  norm_num [feedDropRates, sessRunFetches, sessRunParams]
  exact ⟨by decide, by decide⟩

/-- C2 counterexample: with `full_test` set (and the default-style
positive testing parameters 70 and 1, dataset of 5 keyed structures),
the guard of the test-count branch is false and the code executes
`assert False`: no test example count is computed (`none`), so the test
phase does not complete, contrary to the claim. -/
theorem fullTest_hits_assertFalse :
    testNumStructures true 70 1 none 5 = none := by
  decide

/-- C2 amended: whenever `full_test` is set, the test phase
unconditionally reaches the `assert False` branch — the example count
is never computed and the test pass fails rather than performing
exhaustive evaluation. -/
theorem testNumStructures_none_of_fullTest
    (maxPosT negToPosT : ℤ) (maxEns : Option ℤ) (numKeyed : ℤ) :
    testNumStructures true maxPosT negToPosT maxEns numKeyed = none := by
  rfl

/-- C3: with `num_epochs = 2` and `use_best` false (no early stopping,
no save-all), the unconditional save fires at epoch 1 — the condition
at line 339 is `epoch == num_epochs - 1` while epochs run `1..num_epochs`
— so `ckpt` and `best_ckpt` name the epoch-1 checkpoint, not the final
epoch 2; and with `num_epochs = 1` no checkpoint is saved at all.  This
contradicts the claim that a checkpoint is persisted at the final epoch
(`num_epochs`) as the terminal model. -/
theorem final_ckpt_saved_at_penultimate_epoch :
    (trainLoop ⟨2, false, false, false⟩ [1, 1]).epochsRun = 2 ∧
    (trainLoop ⟨2, false, false, false⟩ [1, 1]).ckpt = some 1 ∧
    (trainLoop ⟨2, false, false, false⟩ [1, 1]).runInfoBestCkpt = some 1 ∧
    (trainLoop ⟨2, false, false, false⟩ [1, 1]).ckpt ≠ some 2 ∧
    (trainLoop ⟨1, false, false, false⟩ [1]).ckpt = none ∧
    (trainLoop ⟨1, false, false, false⟩ [1]).runInfoBestCkpt = none := by
  norm_num [trainLoop, trainEpochs, epochStep, ltInf, geInf, initTrainState]

/-- C4: with early stopping enabled (config `⟨5, false, true, false⟩`:
5 epochs allowed, `use_best` off, `early_stopping` on) and per-epoch
validation losses 1.0, 0.8, 0.9, the loop stops after epoch 3
(0.9 ≥ `prev_val_loss` = 0.8) even though further losses are available,
`best_val_loss` after epoch 2 is 0.8 and is not changed by epoch 3, and
`prev_val_loss` is likewise left at 0.8 by the breaking epoch.  The two
final conjuncts show the stop rule reads `prev_val_loss` and not
`best_val_loss`: at a state with `prev` = 2 and `best` = 1/2 a loss of 1
does not stop (1 < prev, though 1 ≥ best), while at a state with
`prev` = 1/2 and `best` = 2 it does (1 ≥ prev, though 1 < best). -/
theorem early_stopping_one_step_lookback :
    (trainLoop ⟨5, false, true, false⟩ [1, 4/5]).bestValLoss = some (4/5) ∧
    (trainLoop ⟨5, false, true, false⟩ [1, 4/5]).prevValLoss = some (4/5) ∧
    (trainLoop ⟨5, false, true, false⟩ [1, 4/5, 9/10, 1/2, 1/2]).epochsRun = 3 ∧
    (trainLoop ⟨5, false, true, false⟩ [1, 4/5, 9/10, 1/2, 1/2]).stopped = true ∧
    (trainLoop ⟨5, false, true, false⟩ [1, 4/5, 9/10, 1/2, 1/2]).bestValLoss
      = some (4/5) ∧
    (trainLoop ⟨5, false, true, false⟩ [1, 4/5, 9/10, 1/2, 1/2]).prevValLoss
      = some (4/5) ∧
    (epochStep ⟨5, false, true, false⟩
      ⟨some 2, some (1/2), some 1, some 1, some (1/2), [2], 2, false⟩ 3 1).stopped
      = false ∧
    (epochStep ⟨5, false, true, false⟩
      ⟨some (1/2), some 2, some 1, some 1, some 2, [1/2], 2, false⟩ 3 1).stopped
      = true := by
  norm_num [trainLoop, trainEpochs, epochStep, ltInf, geInf, initTrainState]

/-- C9: with `num_epochs = 1` and `use_best`, `early_stopping`,
`save_all_ckpts` all false, no branch of the epoch body assigns the
local variable `ckpt` (for any validation loss `l` the epoch produces),
so the test phase's `to_use = ... if args.use_best else ckpt` reads an
unbound variable: the selection yields `none`, modelling the
`NameError` crash before the test pass. -/
theorem ckpt_unassigned_single_epoch (l : ℚ) (loadedBest : ℕ) :
    (trainLoop ⟨1, false, false, false⟩ [l]).ckpt = none ∧
    selectCheckpoint false false
      (trainLoop ⟨1, false, false, false⟩ [l]).runInfoBestCkpt
      (trainLoop ⟨1, false, false, false⟩ [l]).ckpt loadedBest = none := by
  constructor <;> rfl

/-- C5: whenever `max_pos_regions_per_ensemble` or `neg_to_pos_ratio`
is non-positive, the train/val count computation reaches `assert False`
(no finite example count is computed, `none`), and likewise for the
test split when `full_test` is not set and a testing parameter is
non-positive. -/
theorem nonpositive_sampling_fails_fast
    (maxPos negToPos : ℤ) (maxT maxV : Option ℤ) (nkT nkV rep : ℤ)
    (maxPosT negToPosT : ℤ) (maxEnsTest : Option ℤ) (nkTest : ℤ)
    (htrain : maxPos ≤ 0 ∨ negToPos ≤ 0)
    (htest : maxPosT ≤ 0 ∨ negToPosT ≤ 0) :
    trainValNumStructures maxPos negToPos maxT maxV nkT nkV rep = none ∧
    testNumStructures false maxPosT negToPosT maxEnsTest nkTest = none := by
  constructor
  · rw [trainValNumStructures, if_neg]
    simp only [Bool.and_eq_true, decide_eq_true_eq, not_and]
    omega
  · rw [testNumStructures, if_neg]
    simp only [Bool.and_eq_true, decide_eq_true_eq, not_and, Bool.not_true,
      Bool.not_false, Bool.true_and]
    omega

/-- C5 witness: at the concrete non-positive configurations
`max_pos_regions_per_ensemble = 0` (train/val) and
`max_pos_regions_per_ensemble_testing = -1` (test, `full_test` unset),
no finite example count is produced. -/
theorem nonpositive_sampling_fails_fast_witness :
    ((0 : ℤ) ≤ 0 ∨ (1 : ℤ) ≤ 0) ∧ ((-1 : ℤ) ≤ 0 ∨ (1 : ℤ) ≤ 0) ∧
    trainValNumStructures 0 1 none none 10 8 1 = none ∧
    testNumStructures false (-1) 1 none 5 = none := by
  refine ⟨Or.inl le_rfl, Or.inl (by norm_num), ?_⟩
  exact nonpositive_sampling_fails_fast 0 1 none none 10 8 1 (-1) 1 none 5
    (Or.inl le_rfl) (Or.inl (by norm_num))

/-- C6: for positive `max_pos_regions_per_ensemble` and
`neg_to_pos_ratio`, the per-epoch example counts for train and val are
computed (the computation is a pure function of its inputs, hence
deterministic) and equal
`num_structures * repeat * max_pos_regions_per_ensemble * (1 + neg_to_pos_ratio)`,
where `num_structures` is `max_num_ensembles` when set and the split's
keyed-entity total otherwise. -/
theorem num_examples_per_epoch_formula
    (maxPos negToPos : ℤ) (maxT maxV : Option ℤ) (nkT nkV rep : ℤ)
    (hpos : 0 < maxPos) (hratio : 0 < negToPos) :
    trainValNumStructures maxPos negToPos maxT maxV nkT nkV rep
      = some (numStructuresOf maxT nkT * rep * maxPos * (1 + negToPos),
              numStructuresOf maxV nkV * rep * maxPos * (1 + negToPos)) := by
  rw [trainValNumStructures, if_pos]
  · simp only [Option.some.injEq, Prod.mk.injEq]
    constructor <;> ring
  · simp [hpos, hratio]

/-- C6 witness: with cap 70, ratio 1, 10 keyed train structures (no
ensemble cap), a val ensemble cap of 3, and `repeat_gen = 2`, the counts
are `10 * 2 * 70 * 2 = 2800` and `3 * 2 * 70 * 2 = 840`. -/
theorem num_examples_per_epoch_formula_witness :
    (0 : ℤ) < 70 ∧ (0 : ℤ) < 1 ∧
    trainValNumStructures 70 1 none (some 3) 10 8 2 = some (2800, 840) := by
  refine ⟨by norm_num, by norm_num, ?_⟩
  exact (num_examples_per_epoch_formula 70 1 none (some 3) 10 8 2
    (by norm_num) (by norm_num)).trans (by norm_num [numStructuresOf])

/-- The batch counter grows by at most the remaining fuel. -/
theorem evalLoopGo_i_le (bs : ℕ) :
    ∀ (fuel : ℕ) (stream : List Example) (st : LoopState),
      (evalLoopGo bs fuel stream st).i ≤ st.i + fuel := by
  intro fuel
  induction fuel with
  | zero => intro stream st; simp [evalLoopGo]
  | succ n ih =>
    intro stream st
    cases stream with
    | nil => simp [evalLoopGo]
    | cons e rest =>
      calc (evalLoopGo bs (n + 1) (e :: rest) st).i
          = (evalLoopGo bs n ((e :: rest).drop bs)
              (loopBatchStep bs (e :: rest) st)).i := rfl
        _ ≤ (loopBatchStep bs (e :: rest) st).i + n := ih _ _
        _ = st.i + (n + 1) := by simp [loopBatchStep]; omega

/-- The collected records are exactly the first `fuel * batchSize`
stream elements, appended to whatever was already collected. -/
theorem evalLoopGo_collected (bs : ℕ) :
    ∀ (fuel : ℕ) (stream : List Example) (st : LoopState),
      (evalLoopGo bs fuel stream st).collected
        = st.collected ++ stream.take (fuel * bs) := by
  intro fuel
  induction fuel with
  | zero => intro stream st; simp [evalLoopGo]
  | succ n ih =>
    intro stream st
    cases stream with
    | nil => simp [evalLoopGo]
    | cons e rest =>
      have hmul : (n + 1) * bs = bs + n * bs := by ring
      calc (evalLoopGo bs (n + 1) (e :: rest) st).collected
          = (evalLoopGo bs n ((e :: rest).drop bs)
              (loopBatchStep bs (e :: rest) st)).collected := rfl
        _ = (loopBatchStep bs (e :: rest) st).collected
              ++ ((e :: rest).drop bs).take (n * bs) := ih _ _
        _ = st.collected ++ ((e :: rest).take bs
              ++ ((e :: rest).drop bs).take (n * bs)) := by
            simp [loopBatchStep]
        _ = st.collected ++ (e :: rest).take ((n + 1) * bs) := by
            rw [hmul, List.take_add]

/-- One incremental-mean update, multiplied out:
`(old + (m - old) / (i + 1)) * (i + 1) = old * i + m`. -/
theorem incMean_mul_succ (old m : ℚ) (i : ℕ) :
    (old + (m - old) / ((i : ℚ) + 1)) * ((i : ℚ) + 1) = old * i + m := by
  have h : ((i : ℚ) + 1) ≠ 0 := by positivity
  field_simp
  ring

/-- Invariant of the batch loop: the batch counter equals the number of
processed batches, and each running mean times the counter equals the
sum of the per-batch means processed so far (with both means zero while
no batch has been processed). -/
theorem evalLoopGo_mean_inv (bs : ℕ) :
    ∀ (fuel : ℕ) (stream : List Example) (st : LoopState),
      st.i = st.batches.length →
      (st.i = 0 → st.epochLoss = 0 ∧ st.epochAcc = 0) →
      st.epochLoss * st.i
        = (st.batches.map (fun b => listMean (b.map Prod.fst))).sum →
      st.epochAcc * st.i
        = (st.batches.map (fun b => listMean (b.map Prod.snd))).sum →
      (evalLoopGo bs fuel stream st).i
          = (evalLoopGo bs fuel stream st).batches.length ∧
        ((evalLoopGo bs fuel stream st).i = 0 →
          (evalLoopGo bs fuel stream st).epochLoss = 0 ∧
          (evalLoopGo bs fuel stream st).epochAcc = 0) ∧
        (evalLoopGo bs fuel stream st).epochLoss
            * (evalLoopGo bs fuel stream st).i
          = ((evalLoopGo bs fuel stream st).batches.map
              (fun b => listMean (b.map Prod.fst))).sum ∧
        (evalLoopGo bs fuel stream st).epochAcc
            * (evalLoopGo bs fuel stream st).i
          = ((evalLoopGo bs fuel stream st).batches.map
              (fun b => listMean (b.map Prod.snd))).sum := by
  intro fuel
  induction fuel with
  | zero =>
    intro stream st h1 h0 h2 h3
    exact ⟨h1, h0, h2, h3⟩
  | succ n ih =>
    intro stream st h1 h0 h2 h3
    cases stream with
    | nil => exact ⟨h1, h0, h2, h3⟩
    | cons e rest =>
      show (evalLoopGo bs n ((e :: rest).drop bs)
        (loopBatchStep bs (e :: rest) st)).i = _ ∧ _
      refine ih _ _ ?_ ?_ ?_ ?_
      · simp [loopBatchStep, h1]
      · simp [loopBatchStep]
      · simp only [loopBatchStep]
        push_cast
        rw [incMean_mul_succ st.epochLoss _ st.i, h2]
        simp
      · simp only [loopBatchStep]
        push_cast
        rw [incMean_mul_succ st.epochAcc _ st.i, h3]
        simp

/-- C7: the Evaluator loop processes at most
`num_batches = ceil(num_iters / batch_size)` batches, and terminates
early (the caught `OutOfRangeError` `break`) when the stream is
exhausted first.  In particular for `num_iters = 10`, `batch_size = 4`
it attempts `numBatchesOf 10 4 = 3` batches, and on any stream of 7
examples it returns exactly those 7 collected examples. -/
theorem evalLoop_batch_bound (stream : List Example) (numIters bs : ℕ) :
    (evalLoop stream numIters bs).i ≤ numBatchesOf numIters bs ∧
    numBatchesOf 10 4 = 3 ∧
    (stream.length = 7 → (evalLoop stream 10 4).collected.length = 7) := by
  refine ⟨?_, rfl, ?_⟩
  · have h := evalLoopGo_i_le bs (numBatchesOf numIters bs) stream
      { collected := [], batches := [], epochLoss := 0, epochAcc := 0, i := 0 }
    simpa [evalLoop] using h
  · intro h7
    have h := evalLoopGo_collected 4 (numBatchesOf 10 4) stream
      { collected := [], batches := [], epochLoss := 0, epochAcc := 0, i := 0 }
    simp only [evalLoop]
    rw [h]
    simp [h7, numBatchesOf]

/-- C7 witness: on a concrete stream of 7 examples with
`num_iters = 10` and `batch_size = 4`, the batch bound holds and
exactly 7 examples are collected. -/
theorem evalLoop_batch_bound_witness :
    (evalLoop (List.replicate 7 ((0 : ℚ), (0 : ℚ))) 10 4).i
        ≤ numBatchesOf 10 4 ∧
    (evalLoop (List.replicate 7 ((0 : ℚ), (0 : ℚ))) 10 4).collected.length
        = 7 :=
  ⟨(evalLoop_batch_bound (List.replicate 7 ((0 : ℚ), (0 : ℚ))) 10 4).1,
   (evalLoop_batch_bound (List.replicate 7 ((0 : ℚ), (0 : ℚ))) 10 4).2.2
     (by simp)⟩

/-- C8: after the loop, the running accumulators `epoch_loss` and
`epoch_acc` — maintained per batch by
`mean += (batch_value - mean) / (batch_index + 1)` without storing the
full history — equal the arithmetic mean of the per-batch mean loss and
accuracy values of the processed batches. -/
theorem evalLoop_running_means (stream : List Example) (numIters bs : ℕ) :
    (evalLoop stream numIters bs).epochLoss
        = listMean ((evalLoop stream numIters bs).batches.map
            (fun b => listMean (b.map Prod.fst))) ∧
    (evalLoop stream numIters bs).epochAcc
        = listMean ((evalLoop stream numIters bs).batches.map
            (fun b => listMean (b.map Prod.snd))) := by
  obtain ⟨h1, h0, h2, h3⟩ := evalLoopGo_mean_inv bs (numBatchesOf numIters bs)
    stream { collected := [], batches := [], epochLoss := 0, epochAcc := 0, i := 0 }
    rfl (fun _ => ⟨rfl, rfl⟩) (by simp) (by simp)
  set fin := evalLoopGo bs (numBatchesOf numIters bs) stream
    { collected := [], batches := [], epochLoss := 0, epochAcc := 0, i := 0 } with hfin
  have hEv : evalLoop stream numIters bs = fin := rfl
  rw [hEv]
  rcases Nat.eq_zero_or_pos fin.i with hz | hpos
  · obtain ⟨hL, hA⟩ := h0 hz
    have hb : fin.batches = [] := List.length_eq_zero.mp (h1.symm.trans hz)
    simp [hL, hA, hb, listMean]
  · have hne : ((fin.i : ℚ)) ≠ 0 := by positivity
    constructor
    · rw [listMean, List.length_map, ← h1, eq_div_iff hne]
      exact h2
    · rw [listMean, List.length_map, ← h1, eq_div_iff hne]
      exact h3

/-- C10: in test-only mode the restored checkpoint is the `best_ckpt`
entry of the run info loaded from `model_dir`, whatever `use_best` and
the training-phase variables are; `use_best` selects between
`run_info['best_ckpt']` and `ckpt` only on the non-test-only path. -/
theorem test_only_restores_loaded_best_ckpt (useBest : Bool)
    (runInfoBest ckpt : Option ℕ) (loadedBest : ℕ) :
    selectCheckpoint true useBest runInfoBest ckpt loadedBest
      = some loadedBest ∧
    selectCheckpoint false true runInfoBest ckpt loadedBest = runInfoBest ∧
    selectCheckpoint false false runInfoBest ckpt loadedBest = ckpt := by
  refine ⟨rfl, rfl, rfl⟩

end TrainPPI
